import Mathlib

/-!
Verification of the DataCollectionScripts repository.

Two scripts are embedded:

* `get-all-child-pages.py` — a recursive same-site crawler.  Its mutable
  Python state (the `visited_urls` set, the `child_urls` list) becomes an
  explicit `CrawlState` threaded through the functions; Python exceptions
  (a `requests.get` network error, the `AttributeError` raised by
  `None.startswith`) become the error side of an `Except`; the unbounded
  recursion of `crawl_page` gets an explicit fuel parameter (the Python
  program has no fuel — running out of fuel is a model artifact, marked by
  its own error constructor and proved unreachable for sufficient fuel).

* `analyze-reddit-topic.py` — only `parse_openai_response` is needed; the
  `json` and `re` library collaborators are modelled by executable Lean
  functions.
-/

namespace DataCollection

/-! ## String helpers

Python string primitives are modelled on `List Char` so that everything
reduces by kernel computation. -/

/-- Model of Python `s.startswith(pre)`. -/
def pyStartsWith (s pre : String) : Bool :=
  pre.toList.isPrefixOf s.toList

/-- Boolean membership in a list of strings (Python `in` on a set whose
elements we keep as a list). -/
def strMem (u : String) : List String → Bool
  | [] => false
  | v :: vs => decide (u = v) || strMem u vs

/-- Model of Python `set.add`: membership-preserving insert. -/
def setInsert (u : String) (l : List String) : List String :=
  if strMem u l then l else u :: l

theorem strMem_iff (u : String) (l : List String) : strMem u l = true ↔ u ∈ l := by
  induction l with
  | nil => simp [strMem]
  | cons v vs ih =>
    simp only [strMem, Bool.or_eq_true, decide_eq_true_eq, ih, List.mem_cons]

theorem strMem_false_iff (u : String) (l : List String) :
    strMem u l = false ↔ u ∉ l := by
  rw [← strMem_iff]
  cases strMem u l <;> simp

theorem mem_setInsert (x u : String) (l : List String) :
    x ∈ setInsert u l ↔ x = u ∨ x ∈ l := by
  by_cases h : strMem u l = true
  · rw [setInsert, if_pos h]
    have hu := (strMem_iff u l).mp h
    constructor
    · exact fun hx => Or.inr hx
    · intro hx
      cases hx with
      | inl hx => rw [hx]; exact hu
      | inr hx => exact hx
  · rw [setInsert, if_neg h]
    exact List.mem_cons

theorem subset_setInsert (u : String) (l : List String) : l ⊆ setInsert u l := by
  intro x hx
  exact (mem_setInsert x u l).mpr (Or.inr hx)

namespace GetAllChildPages

/-! ## Data model for `get-all-child-pages.py` -/

/-- The observable part of a `requests` response: the status code and the
list of `href` attributes BeautifulSoup extracts from the anchors of the
body, in document order.  `anchor.get('href')` is `None` for an anchor
without the attribute, hence `Option String`. -/
structure Page where
  status : Nat
  anchors : List (Option String)
deriving Repr, DecidableEq

/-- The HTTP collaborator: `requests.get url` either raises (network
error, modelled as `Except.error ()`) or returns a response. -/
abbrev Env : Type := String → Except Unit Page

/-- The mutable state of the script: `visited_urls` (a set, kept as the
list of its insertions), `child_urls` (the output list), and a ghost
field `fetched` recording every URL passed to `requests.get`, in call
order (instrumentation only — no decision in the code reads it). -/
structure CrawlState where
  visited : List String
  child_urls : List String
  fetched : List String
deriving Repr, DecidableEq

/-- Ways a crawl can stop early: a `requests.get` exception
(`fetchError`), the `AttributeError` raised by `None.startswith('/')`
when an anchor has no href (`attributeError`), or fuel exhaustion
(`outOfFuel`), the model artifact for the unbounded Python recursion. -/
inductive CrawlErr where
  | fetchError
  | attributeError
  | outOfFuel
deriving Repr, DecidableEq

/-- Outcome of a (sub)crawl: the final state, or the propagating Python
exception together with the state at the moment it escaped. -/
abbrev CrawlResult : Type := Except (CrawlErr × CrawlState) CrawlState

/-- State carried by a result, whether the crawl finished or aborted. -/
def resultState : CrawlResult → CrawlState
  | .ok st => st
  | .error (_, st) => st

def isOk : CrawlResult → Bool
  | .ok _ => true
  | .error _ => false

def isFetchErr : CrawlResult → Bool
  | .error (.fetchError, _) => true
  | _ => false

def isOutOfFuel : CrawlResult → Bool
  | .error (.outOfFuel, _) => true
  | _ => false

/-- The href filter, line 34:
`if href and href.startswith('https://') or href.startswith('/')`.
Python precedence groups it as
`(href and href.startswith('https://')) or href.startswith('/')`;
for a present href (`some s`) the left disjunct is falsy when `s` is
empty, so the test is `(s nonempty and s starts with https://) or s
starts with /`. -/
def hrefAccepted (s : String) : Bool :=
  (!(decide (s = "")) && pyStartsWith s "https://") || pyStartsWith s "/"

/-- Evaluation of line 34 including the missing-attribute case: with
`href = None` the left disjunct is falsy (`None and ...` is `None`,
raising nothing), and the right disjunct evaluates
`None.startswith('/')`, raising `AttributeError`. -/
def hrefCheck : Option String → Except CrawlErr (Option String)
  | none => .error .attributeError
  | some s => .ok (if hrefAccepted s then some s else none)

/-- Line 36, `href.split('#')[0]`: everything before the first `#`. -/
def stripFragment (s : String) : String :=
  String.mk (s.toList.takeWhile (fun c => c ≠ '#'))

/-- First occurrence split: `breakOnFirst sep l = some (pre, post)` with
`l = pre ++ sep ++ post` at the first occurrence of `sep`. -/
def breakOnFirst (sep : List Char) : List Char → Option (List Char × List Char)
  | [] => none
  | c :: cs =>
    if sep.isPrefixOf (c :: cs) then some ([], (c :: cs).drop sep.length)
    else
      match breakOnFirst sep cs with
      | some (pre, post) => some (c :: pre, post)
      | none => none

/-- Model of `urllib.parse.urljoin(base, href)` restricted to the href
shapes this crawler can pass (its filter admits only hrefs starting with
`https://` or `/`, and `base` is always an absolute URL):
an href carrying the `https://` scheme is returned as is; a
scheme-relative `//host/...` href inherits the base scheme; a
root-relative `/...` href inherits the base scheme and network location
(the part between `://` and the next `/`).  The final case (a plain
relative path, unreachable from `crawl_page`) resolves against the base
directory, without dot-segment normalization. -/
def urljoin (base href : String) : String :=
  if pyStartsWith href "https://" then href
  else if pyStartsWith href "//" then
    match breakOnFirst [':', '/', '/'] base.toList with
    | some (scheme, _) => String.mk scheme ++ ":" ++ href
    | none => href
  else if pyStartsWith href "/" then
    match breakOnFirst [':', '/', '/'] base.toList with
    | some (scheme, rest) =>
      String.mk (scheme ++ [':', '/', '/'] ++ rest.takeWhile (fun c => c ≠ '/')) ++ href
    | none => href
  else
    String.mk ((base.toList.reverse.dropWhile (fun c => c ≠ '/')).reverse) ++ href

/-- The anchor loop of `crawl_page` (lines 30-49).  `recur` is the
recursive call `crawl_page(absolute_url, ...)`; the loop processes hrefs
in document order, filtering (line 34), stripping the fragment (36),
resolving (38), scope-checking against `original_url` (41), deduplicating
against `visited_urls` (43), and otherwise appending to `child_urls` (45)
and recursing (49) before the next sibling href.  Any exception from the
filter or from the recursive call propagates. -/
def crawlAnchors (recur : String → CrawlState → CrawlResult)
    (original_url url : String) :
    List (Option String) → CrawlState → CrawlResult
  | [], st => .ok st
  | href :: rest, st =>
    match hrefCheck href with
    | .error e => .error (e, st)
    | .ok none => crawlAnchors recur original_url url rest st
    | .ok (some s) =>
      let href2 := stripFragment s
      let absolute_url := urljoin url href2
      if pyStartsWith absolute_url original_url then
        if strMem absolute_url st.visited then
          crawlAnchors recur original_url url rest st
        else
          match recur absolute_url
              { st with child_urls := st.child_urls ++ [absolute_url] } with
          | .error e => .error e
          | .ok st2 => crawlAnchors recur original_url url rest st2
      else
        crawlAnchors recur original_url url rest st

/-- `crawl_page(url, visited_urls, child_urls, original_url)`, lines
17-49.  The URL is added to `visited_urls` first (line 20); then
`requests.get` runs (line 23) — there is no try/except anywhere, so a
network error escapes with the state as of the insertion; then the anchor
loop.  Fuel only bounds the recursion depth of the model. -/
def crawl_page (env : Env) (original_url : String) :
    Nat → String → CrawlState → CrawlResult
  | 0, url, st => .error (.outOfFuel, { st with visited := setInsert url st.visited })
  | fuel + 1, url, st =>
    let st1 : CrawlState :=
      { st with visited := setInsert url st.visited, fetched := st.fetched ++ [url] }
    match env url with
    | .error _ => .error (.fetchError, st1)
    | .ok page => crawlAnchors (crawl_page env original_url fuel) original_url url page.anchors st1

/-- The start state set up by `main` (lines 56-58). -/
def initState : CrawlState := ⟨[], [], []⟩

/-- `main`'s crawl (line 61): `original_url` is the start URL and both
containers start empty. -/
def runCrawl (env : Env) (fuel : Nat) (url : String) : CrawlResult :=
  crawl_page env url fuel url initState

/-- The rows `main` writes to `child_urls.csv` (lines 63-67): the header
row, then one single-cell row per discovered URL, in list order. -/
def csvRows (child_urls : List String) : List (List String) :=
  [["Child URLs"]] ++ child_urls.map (fun u => [u])

/-- The file written by `main`: opened with mode `w` (overwriting) and
written once, after the crawl returns; if the crawl raises, control never
reaches the `open` and nothing is written (`none`). -/
def mainOutput (env : Env) (fuel : Nat) (url : String) : Option (List (List String)) :=
  match runCrawl env fuel url with
  | .ok st => some (csvRows st.child_urls)
  | .error _ => none

/-! ## Fixture environments -/

/-- End-to-end fixture: the root page of `https://ex.com/` links to
`/a`, `https://ex.com/b`, `https://other.com/c` and `/a#dup`; the pages
`/a` and `/b` have no links. -/
def envC3 : Env := fun u =>
  if u = "https://ex.com/" then
    .ok ⟨200, [some "/a", some "https://ex.com/b", some "https://other.com/c", some "/a#dup"]⟩
  else if u = "https://ex.com/a" then .ok ⟨200, []⟩
  else if u = "https://ex.com/b" then .ok ⟨200, []⟩
  else .error ()

/-- Fetch-failure fixture: the root links to `/b` and `/c`; the GET for
`https://s.com/b` raises a network error; `https://s.com/c` would be
fine. -/
def envC1 : Env := fun u =>
  if u = "https://s.com/" then .ok ⟨200, [some "/b", some "/c"]⟩
  else if u = "https://s.com/c" then .ok ⟨200, []⟩
  else .error ()

/-- DFS-order fixture graph: A links to B and C, B links to D. -/
def envDFS : Env := fun u =>
  if u = "https://s.com/" then .ok ⟨200, [some "/b", some "/c"]⟩
  else if u = "https://s.com/b" then .ok ⟨200, [some "/d"]⟩
  else if u = "https://s.com/c" then .ok ⟨200, []⟩
  else if u = "https://s.com/d" then .ok ⟨200, []⟩
  else .error ()

/-- Cycle fixture graph: A links to B, B links back to A. -/
def envCycle : Env := fun u =>
  if u = "https://s.com/" then .ok ⟨200, [some "/b"]⟩
  else if u = "https://s.com/b" then .ok ⟨200, [some "/"]⟩
  else .error ()

/-- Literal-prefix-scope fixture: the start page links to a different
host whose URL nevertheless extends the start URL character-wise. -/
def envEvil : Env := fun u =>
  if u = "https://site.com" then .ok ⟨200, [some "https://site.com.evil.com/x"]⟩
  else if u = "https://site.com.evil.com/x" then .ok ⟨200, []⟩
  else .error ()

/-- Out-of-scope fixture: the start page links only to another host. -/
def envOther : Env := fun u =>
  if u = "https://site.com" then .ok ⟨200, [some "https://other.com/x"]⟩
  else .error ()

/-- Every page is empty. -/
def env0 : Env := fun _ => .ok ⟨200, []⟩

/-- Every GET raises. -/
def envErr : Env := fun _ => .error ()

/-- Two environments equal except for the HTTP status codes. -/
def envStatus404 : Env := fun u =>
  if u = "https://s.com/" then .ok ⟨404, [some "/x"]⟩ else .error ()

/-- See `envStatus404`. -/
def envStatus200 : Env := fun u =>
  if u = "https://s.com/" then .ok ⟨200, [some "/x"]⟩ else .error ()

/-! ## Unfolding equations -/

theorem crawlAnchors_nil (recur : String → CrawlState → CrawlResult)
    (orig url : String) (st : CrawlState) :
    crawlAnchors recur orig url [] st = .ok st := rfl

theorem crawlAnchors_none (recur : String → CrawlState → CrawlResult)
    (orig url : String) (rest : List (Option String)) (st : CrawlState) :
    crawlAnchors recur orig url (none :: rest) st = .error (.attributeError, st) := rfl

theorem crawlAnchors_some_rej (recur : String → CrawlState → CrawlResult)
    (orig url s : String) (rest : List (Option String)) (st : CrawlState)
    (h : hrefAccepted s = false) :
    crawlAnchors recur orig url (some s :: rest) st =
      crawlAnchors recur orig url rest st := by
  simp [crawlAnchors, hrefCheck, h]

theorem crawlAnchors_some_acc (recur : String → CrawlState → CrawlResult)
    (orig url s : String) (rest : List (Option String)) (st : CrawlState)
    (h : hrefAccepted s = true) :
    crawlAnchors recur orig url (some s :: rest) st =
      (if pyStartsWith (urljoin url (stripFragment s)) orig then
        if strMem (urljoin url (stripFragment s)) st.visited then
          crawlAnchors recur orig url rest st
        else
          match recur (urljoin url (stripFragment s))
              { st with child_urls := st.child_urls ++ [urljoin url (stripFragment s)] } with
          | .error e => .error e
          | .ok st2 => crawlAnchors recur orig url rest st2
      else crawlAnchors recur orig url rest st) := by
  simp [crawlAnchors, hrefCheck, h]

theorem crawl_page_zero (env : Env) (orig url : String) (st : CrawlState) :
    crawl_page env orig 0 url st =
      .error (.outOfFuel, { st with visited := setInsert url st.visited }) := rfl

theorem crawl_page_succ_err (env : Env) (orig : String) (fuel : Nat) (url : String)
    (st : CrawlState) (h : env url = .error ()) :
    crawl_page env orig (fuel + 1) url st =
      .error (.fetchError,
        { st with visited := setInsert url st.visited, fetched := st.fetched ++ [url] }) := by
  simp [crawl_page, h]

theorem crawl_page_succ_ok (env : Env) (orig : String) (fuel : Nat) (url : String)
    (st : CrawlState) (page : Page) (h : env url = .ok page) :
    crawl_page env orig (fuel + 1) url st =
      crawlAnchors (crawl_page env orig fuel) orig url page.anchors
        { st with visited := setInsert url st.visited, fetched := st.fetched ++ [url] } := by
  simp [crawl_page, h]

/-! ## A generic preservation principle for the traversal

`InvA` is a property of the state that holds at the boundaries of the
anchor loop; `Inv u st` is its strengthening at entry to
`crawl_page u` (where `u` is appended to `child_urls` but not yet to
`visited_urls`).  The two obligations mirror the two state changes of
the code: the visited-insert at the top of `crawl_page`, and the
child-append just before a recursive call. -/

theorem crawlAnchors_inv (recur : String → CrawlState → CrawlResult)
    (orig url : String)
    (Inv : String → CrawlState → Prop) (InvA : CrawlState → Prop)
    (hAppend : ∀ st s, InvA st → hrefAccepted s = true →
      pyStartsWith (urljoin url (stripFragment s)) orig = true →
      strMem (urljoin url (stripFragment s)) st.visited = false →
      Inv (urljoin url (stripFragment s))
        { st with child_urls := st.child_urls ++ [urljoin url (stripFragment s)] })
    (hrec : ∀ u st, Inv u st → InvA (resultState (recur u st))) :
    ∀ (hrefs : List (Option String)) (st : CrawlState),
      InvA st → InvA (resultState (crawlAnchors recur orig url hrefs st)) := by
  intro hrefs
  induction hrefs with
  | nil => intro st h; exact h
  | cons href rest ih =>
    intro st h
    cases href with
    | none => rw [crawlAnchors_none]; exact h
    | some s =>
      cases hacc : hrefAccepted s with
      | false => rw [crawlAnchors_some_rej _ _ _ _ _ _ hacc]; exact ih st h
      | true =>
        rw [crawlAnchors_some_acc _ _ _ _ _ _ hacc]
        cases hsc : pyStartsWith (urljoin url (stripFragment s)) orig with
        | false => rw [if_neg (by simp)]; exact ih st h
        | true =>
          rw [if_pos rfl]
          cases hv : strMem (urljoin url (stripFragment s)) st.visited with
          | true => rw [if_pos rfl]; exact ih st h
          | false =>
            rw [if_neg (by simp)]
            have hres := hrec _ _ (hAppend st s h hacc hsc hv)
            cases hr : recur (urljoin url (stripFragment s))
                { st with child_urls := st.child_urls ++ [urljoin url (stripFragment s)] } with
            | error e => rw [hr] at hres; exact hres
            | ok st2 => rw [hr] at hres; exact ih st2 hres

theorem crawl_page_inv (env : Env) (orig : String)
    (Inv : String → CrawlState → Prop) (InvA : CrawlState → Prop)
    (h0 : ∀ url st, Inv url st → InvA { st with visited := setInsert url st.visited })
    (h1 : ∀ url st, Inv url st →
      InvA { st with visited := setInsert url st.visited, fetched := st.fetched ++ [url] })
    (hAppend : ∀ url st s, InvA st → hrefAccepted s = true →
      pyStartsWith (urljoin url (stripFragment s)) orig = true →
      strMem (urljoin url (stripFragment s)) st.visited = false →
      Inv (urljoin url (stripFragment s))
        { st with child_urls := st.child_urls ++ [urljoin url (stripFragment s)] }) :
    ∀ (fuel : Nat) (url : String) (st : CrawlState),
      Inv url st → InvA (resultState (crawl_page env orig fuel url st)) := by
  intro fuel
  induction fuel with
  | zero => intro url st h; rw [crawl_page_zero]; exact h0 url st h
  | succ fuel ih =>
    intro url st h
    cases he : env url with
    | error e =>
      cases e
      rw [crawl_page_succ_err env orig fuel url st he]
      exact h1 url st h
    | ok page =>
      rw [crawl_page_succ_ok env orig fuel url st page he]
      exact crawlAnchors_inv (crawl_page env orig fuel) orig url Inv InvA
        (hAppend url) ih page.anchors _ (h1 url st h)

/-! ## Claim C1 (counterexample): a network error aborts the whole run.

`crawl_page` wraps `requests.get` in no try/except, so a network error
on one node propagates: the state shows the failed node was reached
(and marked visited) but its sibling `/c` was never visited, appended,
or fetched, and the run ends in an error, not a normal return. -/

/-- C1, counterexample: in `envC1` the GET for `https://s.com/b` raises;
contrary to the claim, the run aborts (the result is the propagating
fetch error, not a normal return) and the sibling `https://s.com/c` is
never visited. -/
theorem claim1_network_error_aborts_cex :
    isOk (runCrawl envC1 10 "https://s.com/") = false ∧
    isFetchErr (runCrawl envC1 10 "https://s.com/") = true ∧
    (resultState (runCrawl envC1 10 "https://s.com/")).child_urls = ["https://s.com/b"] ∧
    strMem "https://s.com/c" (resultState (runCrawl envC1 10 "https://s.com/")).visited = false ∧
    strMem "https://s.com/c" (resultState (runCrawl envC1 10 "https://s.com/")).fetched = false :=
  ⟨rfl, rfl, rfl, rfl, rfl⟩

/-! ## Claim C2: the href filter (code bug at missing hrefs).

Empty and non-matching hrefs are rejected silently, but a missing href
(`anchor.get('href')` returning `None`) makes
`None.startswith('/')` raise `AttributeError`, contradicting the
comment above line 34 (and the claim). -/

/-- C2: empty and `javascript:void(0)` hrefs are rejected silently (no
append, no recursion, no error), hrefs starting with `https://` or `/`
pass, but an anchor with no href attribute raises `AttributeError`,
aborting the crawl. -/
theorem claim2_href_filter :
    hrefCheck (some "") = .ok none ∧
    hrefCheck (some "javascript:void(0)") = .ok none ∧
    hrefCheck (some "/a") = .ok (some "/a") ∧
    hrefCheck (some "https://x.com/") = .ok (some "https://x.com/") ∧
    hrefCheck none = .error .attributeError ∧
    crawlAnchors (crawl_page env0 "https://s.com/" 5) "https://s.com/" "https://s.com/"
        [some "", some "javascript:void(0)"] initState = .ok initState ∧
    crawlAnchors (crawl_page env0 "https://s.com/" 5) "https://s.com/" "https://s.com/"
        [none] initState = .error (.attributeError, initState) :=
  ⟨rfl, rfl, rfl, rfl, rfl, rfl, rfl⟩

/-! ## Claim C3: end-to-end fixture. -/

/-- C3: from start URL `https://ex.com/`, the crawl returns normally
with DiscoveredList `["https://ex.com/a", "https://ex.com/b"]`: the
out-of-scope `https://other.com/c` is excluded, `/a#dup` is stripped to
`/a` and deduplicated, and the root URL does not appear. -/
theorem claim3_end_to_end :
    isOk (runCrawl envC3 10 "https://ex.com/") = true ∧
    (resultState (runCrawl envC3 10 "https://ex.com/")).child_urls
      = ["https://ex.com/a", "https://ex.com/b"] ∧
    strMem "https://ex.com/" (resultState (runCrawl envC3 10 "https://ex.com/")).child_urls
      = false :=
  ⟨rfl, rfl, rfl⟩

/-! ## Claim C4: depth-first pre-order with sibling order preserved. -/

/-- C4: in the fixture graph A → [B, C], B → [D], DiscoveredList is
`[B, D, C]` (depth-first: D is reached from B before the sibling C is
processed), not the breadth-first `[B, C, D]`. -/
theorem claim4_dfs_order :
    (resultState (runCrawl envDFS 10 "https://s.com/")).child_urls
      = ["https://s.com/b", "https://s.com/d", "https://s.com/c"] ∧
    decide ((resultState (runCrawl envDFS 10 "https://s.com/")).child_urls
      = ["https://s.com/b", "https://s.com/c", "https://s.com/d"]) = false :=
  ⟨rfl, rfl⟩

/-! ## Claim C6: `child_urls` never holds a URL twice.

A URL is appended only when it is absent from `visited_urls`, and the
immediately following recursive call inserts it there, so every element
of `child_urls` is in `visited_urls` (except, transiently, the one being
entered) and appends never repeat.  Quantifying over the fuel exposes
every intermediate point of the Python traversal, and `resultState`
covers aborted runs too. -/

/-- C6: at the end of any (possibly aborted or fuel-truncated) crawl
from the empty start state, `child_urls` has no duplicates. -/
theorem claim6_no_duplicate_urls (env : Env) (orig : String) (fuel : Nat) (url : String) :
    (resultState (crawl_page env orig fuel url initState)).child_urls.Nodup := by
  have h := crawl_page_inv env orig
      (fun u st => st.child_urls.Nodup ∧ ∀ x ∈ st.child_urls, x ∈ st.visited ∨ x = u)
      (fun st => st.child_urls.Nodup ∧ ∀ x ∈ st.child_urls, x ∈ st.visited)
      (fun u st hst => ⟨hst.1, fun x hx => by
        cases hst.2 x hx with
        | inl hv => exact subset_setInsert u st.visited hv
        | inr he => rw [he]; exact (mem_setInsert u u st.visited).mpr (Or.inl rfl)⟩)
      (fun u st hst => ⟨hst.1, fun x hx => by
        cases hst.2 x hx with
        | inl hv => exact subset_setInsert u st.visited hv
        | inr he => rw [he]; exact (mem_setInsert u u st.visited).mpr (Or.inl rfl)⟩)
      (fun u st s hst hacc hsc hv => by
        constructor
        · rw [List.nodup_append]
          refine ⟨hst.1, List.nodup_singleton _, fun x hx hxa => ?_⟩
          rw [List.mem_singleton.mp hxa] at hx
          exact (strMem_false_iff _ _).mp hv (hst.2 _ hx)
        · intro x hx
          cases List.mem_append.mp hx with
          | inl hx => exact Or.inl (hst.2 x hx)
          | inr hx => exact Or.inr (List.mem_singleton.mp hx))
      fuel url initState ⟨List.nodup_nil, fun x hx => absurd hx (List.not_mem_nil x)⟩
  exact h.1

/-! ## Claim C7: scoping is a literal string-prefix test. -/

/-- C7: every URL the crawl ever appends starts (character-wise) with
`original_url`; concretely, under scope `https://site.com` a page on the
foreign host `https://site.com.evil.com` IS collected (the prefix test
is not origin-aware), while `https://other.com/x` never appears. -/
theorem claim7_literal_prefix_scope :
    (∀ (env : Env) (orig : String) (fuel : Nat) (url : String),
      ∀ x ∈ (resultState (crawl_page env orig fuel url initState)).child_urls,
        pyStartsWith x orig = true) ∧
    (resultState (runCrawl envEvil 5 "https://site.com")).child_urls
      = ["https://site.com.evil.com/x"] ∧
    (resultState (runCrawl envOther 5 "https://site.com")).child_urls = [] := by
  refine ⟨?_, rfl, rfl⟩
  intro env orig fuel url
  exact crawl_page_inv env orig
    (fun _ st => ∀ x ∈ st.child_urls, pyStartsWith x orig = true)
    (fun st => ∀ x ∈ st.child_urls, pyStartsWith x orig = true)
    (fun _ _ h => h) (fun _ _ h => h)
    (fun u st s hst hacc hsc hv x hx => by
      cases List.mem_append.mp hx with
      | inl hx => exact hst x hx
      | inr hx => rw [List.mem_singleton.mp hx]; exact hsc)
    fuel url initState (fun x hx => absurd hx (List.not_mem_nil x))

/-- C7, witness: the collected foreign-host URL of the fixture does
start, character-wise, with the scope prefix. -/
theorem claim7_literal_prefix_scope_witness :
    pyStartsWith "https://site.com.evil.com/x" "https://site.com" = true :=
  claim7_literal_prefix_scope.1 envEvil "https://site.com" 5 "https://site.com"
    "https://site.com.evil.com/x" (by decide)

/-! ## Claim C9: everything visited or fetched is the start URL or
passed the scope test.

The scope check (line 41) guards the only recursive call, and
`crawl_page` is the only place that inserts into `visited_urls` or calls
`requests.get`; so apart from the start URL, only scope-passing URLs are
ever visited or fetched. -/

/-- C9: in any run from the start URL, every URL in `visited_urls` (and
every URL ever fetched) is the start URL itself or starts with it. -/
theorem claim9_visited_scope (env : Env) (fuel : Nat) (start u : String)
    (h : u ∈ (resultState (runCrawl env fuel start)).visited ∨
      u ∈ (resultState (runCrawl env fuel start)).fetched) :
    u = start ∨ pyStartsWith u start = true := by
  have key := crawl_page_inv env start
      (fun uc st =>
        ((∀ x ∈ st.visited, x = start ∨ pyStartsWith x start = true) ∧
         (∀ x ∈ st.fetched, x = start ∨ pyStartsWith x start = true)) ∧
        (uc = start ∨ pyStartsWith uc start = true))
      (fun st =>
        (∀ x ∈ st.visited, x = start ∨ pyStartsWith x start = true) ∧
        (∀ x ∈ st.fetched, x = start ∨ pyStartsWith x start = true))
      (fun uc st hst => ⟨fun x hx => by
        cases (mem_setInsert x uc st.visited).mp hx with
        | inl he => rw [he]; exact hst.2
        | inr hv => exact hst.1.1 x hv, hst.1.2⟩)
      (fun uc st hst => ⟨fun x hx => by
        cases (mem_setInsert x uc st.visited).mp hx with
        | inl he => rw [he]; exact hst.2
        | inr hv => exact hst.1.1 x hv,
        fun x hx => by
        cases List.mem_append.mp hx with
        | inl hf => exact hst.1.2 x hf
        | inr hf => rw [List.mem_singleton.mp hf]; exact hst.2⟩)
      (fun uc st s hst hacc hsc hv => ⟨hst, Or.inr hsc⟩)
      fuel start initState ⟨⟨fun x hx => absurd hx (List.not_mem_nil x),
        fun x hx => absurd hx (List.not_mem_nil x)⟩, Or.inl rfl⟩
  cases h with
  | inl h => exact key.1 u h
  | inr h => exact key.2 u h

/-- C9, witness: in the end-to-end fixture, `https://ex.com/a` is in the
final visited set, and indeed starts with the start URL. -/
theorem claim9_visited_scope_witness :
    "https://ex.com/a" = "https://ex.com/" ∨
      pyStartsWith "https://ex.com/a" "https://ex.com/" = true :=
  claim9_visited_scope envC3 10 "https://ex.com/" "https://ex.com/a"
    (Or.inl (by decide))

/-! ## Claim C5: termination on finite link graphs.

`visited_urls` strictly grows at each recursive call and recursion only
reaches unvisited URLs, so the recursion depth is bounded by the number
of distinct reachable URLs.  In the fuel model: if a finite set `S`
contains the start URL and is closed under the in-scope links the
environment can produce, any fuel beyond `S.length` is never
exhausted. -/

/-- The visited set only grows (it survives even the aborting paths). -/
theorem crawl_page_visited_mono (env : Env) (orig : String) (fuel : Nat) (url : String)
    (st : CrawlState) :
    st.visited ⊆ (resultState (crawl_page env orig fuel url st)).visited := by
  intro x hx
  exact crawl_page_inv env orig
    (fun _ s => x ∈ s.visited) (fun s => x ∈ s.visited)
    (fun u s h => subset_setInsert u s.visited h)
    (fun u s h => subset_setInsert u s.visited h)
    (fun u s s2 h _ _ _ => h)
    fuel url st hx

theorem strMem_setInsert (a u : String) (l : List String) :
    strMem a (setInsert u l) = (decide (a = u) || strMem a l) := by
  by_cases h : strMem u l = true
  · rw [setInsert, if_pos h]
    by_cases hau : a = u
    · rw [hau, h]; simp
    · simp [hau]
  · rw [setInsert, if_neg h]
    rfl

/-- The number of elements of `S` not yet visited. -/
def unvisitedCount (S visited : List String) : Nat :=
  (S.filter (fun u => !strMem u visited)).length

theorem unvisitedCount_cons_mem (a : String) (S v : List String) (h : strMem a v = true) :
    unvisitedCount (a :: S) v = unvisitedCount S v := by
  unfold unvisitedCount
  simp [List.filter_cons, h]

theorem unvisitedCount_cons_notMem (a : String) (S v : List String) (h : strMem a v = false) :
    unvisitedCount (a :: S) v = unvisitedCount S v + 1 := by
  unfold unvisitedCount
  simp [List.filter_cons, h]

theorem unvisitedCount_nil (S : List String) : unvisitedCount S [] = S.length := by
  induction S with
  | nil => rfl
  | cons a S ih => rw [unvisitedCount_cons_notMem a S [] rfl, ih, List.length_cons]

theorem unvisitedCount_le_of_subset (S v v' : List String)
    (h : v ⊆ v') : unvisitedCount S v' ≤ unvisitedCount S v := by
  induction S with
  | nil => exact Nat.le_refl _
  | cons a S ih =>
    cases hb : strMem a v with
    | true =>
      have hb' := (strMem_iff a v').mpr (h ((strMem_iff a v).mp hb))
      rw [unvisitedCount_cons_mem a S v hb, unvisitedCount_cons_mem a S v' hb']
      exact ih
    | false =>
      rw [unvisitedCount_cons_notMem a S v hb]
      cases hb' : strMem a v' with
      | true =>
        rw [unvisitedCount_cons_mem a S v' hb']
        exact Nat.le_succ_of_le ih
      | false =>
        rw [unvisitedCount_cons_notMem a S v' hb']
        exact Nat.succ_le_succ ih

theorem unvisitedCount_pos (S v : List String) (u : String)
    (hu : u ∈ S) (hnv : strMem u v = false) : 0 < unvisitedCount S v := by
  induction S with
  | nil => cases hu
  | cons a S ih =>
    cases List.mem_cons.mp hu with
    | inl he =>
      rw [he] at hnv
      rw [unvisitedCount_cons_notMem a S v hnv]
      exact Nat.succ_pos _
    | inr hm =>
      cases hb : strMem a v with
      | true => rw [unvisitedCount_cons_mem a S v hb]; exact ih hm
      | false => rw [unvisitedCount_cons_notMem a S v hb]; exact Nat.succ_pos _

theorem unvisitedCount_setInsert_lt (S v : List String) (u : String)
    (hu : u ∈ S) (hnv : strMem u v = false) :
    unvisitedCount S (setInsert u v) < unvisitedCount S v := by
  induction S with
  | nil => cases hu
  | cons a S ih =>
    cases List.mem_cons.mp hu with
    | inl he =>
      subst he
      have h1 : strMem u (setInsert u v) = true := by
        rw [strMem_setInsert]; simp
      rw [unvisitedCount_cons_mem u S _ h1, unvisitedCount_cons_notMem u S v hnv]
      exact Nat.lt_succ_of_le (unvisitedCount_le_of_subset S v (setInsert u v) (subset_setInsert u v))
    | inr hm =>
      cases hb : strMem a v with
      | true =>
        have hb2 : strMem a (setInsert u v) = true := by
          rw [strMem_setInsert, hb]; simp
        rw [unvisitedCount_cons_mem a S _ hb2, unvisitedCount_cons_mem a S v hb]
        exact ih hm
      | false =>
        cases hb2 : strMem a (setInsert u v) with
        | true =>
          rw [unvisitedCount_cons_mem a S _ hb2, unvisitedCount_cons_notMem a S v hb]
          exact Nat.lt_succ_of_lt (ih hm)
        | false =>
          rw [unvisitedCount_cons_notMem a S _ hb2, unvisitedCount_cons_notMem a S v hb]
          exact Nat.succ_lt_succ (ih hm)

/-- `S` contains every in-scope canonical URL any page of `env` links
to: a finite over-approximation of the reachable URL space. -/
def scopeClosed (env : Env) (start : String) (S : List String) : Prop :=
  ∀ u page, env u = .ok page → ∀ s, some s ∈ page.anchors → hrefAccepted s = true →
    pyStartsWith (urljoin u (stripFragment s)) start = true →
    urljoin u (stripFragment s) ∈ S

theorem crawlAnchors_noFuel (env : Env) (start : String) (S : List String) (fuel : Nat)
    (hP : ∀ url st, url ∈ S → strMem url st.visited = false →
      unvisitedCount S st.visited ≤ fuel →
      isOutOfFuel (crawl_page env start fuel url st) = false) :
    ∀ (hrefs : List (Option String)) (url : String) (st : CrawlState),
      (∀ s, some s ∈ hrefs → hrefAccepted s = true →
        pyStartsWith (urljoin url (stripFragment s)) start = true →
        urljoin url (stripFragment s) ∈ S) →
      unvisitedCount S st.visited ≤ fuel →
      isOutOfFuel (crawlAnchors (crawl_page env start fuel) start url hrefs st) = false := by
  intro hrefs
  induction hrefs with
  | nil => intro url st _ _; rfl
  | cons href rest ih =>
    intro url st hS hcount
    cases href with
    | none => rw [crawlAnchors_none]; rfl
    | some s =>
      cases hacc : hrefAccepted s with
      | false =>
        rw [crawlAnchors_some_rej _ _ _ _ _ _ hacc]
        exact ih url st (fun s2 hs2 => hS s2 (List.mem_cons_of_mem _ hs2)) hcount
      | true =>
        rw [crawlAnchors_some_acc _ _ _ _ _ _ hacc]
        cases hsc : pyStartsWith (urljoin url (stripFragment s)) start with
        | false =>
          rw [if_neg (by simp)]
          exact ih url st (fun s2 hs2 => hS s2 (List.mem_cons_of_mem _ hs2)) hcount
        | true =>
          rw [if_pos rfl]
          cases hv : strMem (urljoin url (stripFragment s)) st.visited with
          | true =>
            rw [if_pos rfl]
            exact ih url st (fun s2 hs2 => hS s2 (List.mem_cons_of_mem _ hs2)) hcount
          | false =>
            rw [if_neg (by simp)]
            have haS : urljoin url (stripFragment s) ∈ S :=
              hS s (List.mem_cons_self _ _) hacc hsc
            have hin := hP (urljoin url (stripFragment s))
              { st with child_urls := st.child_urls ++ [urljoin url (stripFragment s)] }
              haS hv hcount
            cases hr : crawl_page env start fuel (urljoin url (stripFragment s))
                { st with child_urls := st.child_urls ++ [urljoin url (stripFragment s)] } with
            | error e => rw [hr] at hin; exact hin
            | ok st2 =>
              have hmono := crawl_page_visited_mono env start fuel (urljoin url (stripFragment s))
                { st with child_urls := st.child_urls ++ [urljoin url (stripFragment s)] }
              rw [hr] at hmono
              have hcount2 : unvisitedCount S st2.visited ≤ fuel :=
                Nat.le_trans (unvisitedCount_le_of_subset S _ _ hmono) hcount
              exact ih url st2 (fun s2 hs2 => hS s2 (List.mem_cons_of_mem _ hs2)) hcount2

theorem crawl_page_noFuel (env : Env) (start : String) (S : List String)
    (hcl : scopeClosed env start S) :
    ∀ (fuel : Nat) (url : String) (st : CrawlState), url ∈ S →
      strMem url st.visited = false → unvisitedCount S st.visited ≤ fuel →
      isOutOfFuel (crawl_page env start fuel url st) = false := by
  intro fuel
  induction fuel with
  | zero =>
    intro url st hu hnv hcount
    have := unvisitedCount_pos S st.visited url hu hnv
    omega
  | succ fuel ih =>
    intro url st hu hnv hcount
    cases he : env url with
    | error e =>
      cases e
      rw [crawl_page_succ_err env start fuel url st he]
      rfl
    | ok page =>
      rw [crawl_page_succ_ok env start fuel url st page he]
      have hc2 : unvisitedCount S (setInsert url st.visited) ≤ fuel := by
        have hlt := unvisitedCount_setInsert_lt S st.visited url hu hnv
        omega
      exact crawlAnchors_noFuel env start S fuel ih page.anchors url
        { st with visited := setInsert url st.visited, fetched := st.fetched ++ [url] }
        (fun s hs hacc hsc => hcl url page he s hs hacc hsc)
        hc2

/-- C5: (a) for every environment whose in-scope link targets stay
inside a finite set `S` containing the start URL, fuel `S.length` is
never exhausted — the Python recursion, whose only bound is that
`visited_urls` grows and revisits are skipped, terminates on finite
graphs; (b) on the two-node cycle A → B → A the crawl returns normally
with DiscoveredList `[B]`. -/
theorem claim5_termination :
    (∀ (env : Env) (start : String) (S : List String) (fuel : Nat),
      scopeClosed env start S → start ∈ S → S.length ≤ fuel →
      isOutOfFuel (runCrawl env fuel start) = false) ∧
    (isOk (runCrawl envCycle 5 "https://s.com/") = true ∧
     (resultState (runCrawl envCycle 5 "https://s.com/")).child_urls = ["https://s.com/b"]) := by
  refine ⟨?_, rfl, rfl⟩
  intro env start S fuel hcl hstart hfuel
  have hc : unvisitedCount S initState.visited ≤ fuel := by
    rw [show initState.visited = [] from rfl, unvisitedCount_nil]
    exact hfuel
  exact crawl_page_noFuel env start S hcl fuel start initState hstart rfl hc

/-- C5, witness: with an environment where every GET fails, the
singleton set of the start URL is closed, and fuel 1 is not
exhausted. -/
theorem claim5_termination_witness :
    isOutOfFuel (runCrawl envErr 1 "https://w.com/") = false :=
  claim5_termination.1 envErr "https://w.com/" ["https://w.com/"] 1
    (fun u page h => nomatch h) (by decide) (by decide)

/-! ## Claim C1 (amended): what actually happens on a failing GET.

The code has no try/except: a network error escapes `requests.get` and
aborts the entire run (after the failing URL was already added to
`visited_urls`, so there could be no retry).  An HTTP-level failure does
not raise at all: `response.status_code` is never consulted, so the
crawl of a page is a function of the anchors alone. -/

theorem crawlAnchors_congr (recur recur' : String → CrawlState → CrawlResult)
    (h : ∀ u st, recur u st = recur' u st) (orig url : String) :
    ∀ (hrefs : List (Option String)) (st : CrawlState),
      crawlAnchors recur orig url hrefs st = crawlAnchors recur' orig url hrefs st := by
  intro hrefs
  induction hrefs with
  | nil => intro st; rfl
  | cons href rest ih =>
    intro st
    cases href with
    | none => rfl
    | some s =>
      cases hacc : hrefAccepted s with
      | false =>
        rw [crawlAnchors_some_rej _ _ _ _ _ _ hacc,
            crawlAnchors_some_rej _ _ _ _ _ _ hacc]
        exact ih st
      | true =>
        rw [crawlAnchors_some_acc _ _ _ _ _ _ hacc,
            crawlAnchors_some_acc _ _ _ _ _ _ hacc]
        cases hsc : pyStartsWith (urljoin url (stripFragment s)) orig with
        | false =>
          rw [if_neg (by simp), if_neg (by simp)]
          exact ih st
        | true =>
          rw [if_pos rfl, if_pos rfl]
          cases hv : strMem (urljoin url (stripFragment s)) st.visited with
          | true =>
            rw [if_pos rfl, if_pos rfl]
            exact ih st
          | false =>
            rw [if_neg (by simp), if_neg (by simp),
                h (urljoin url (stripFragment s))
                  { st with child_urls := st.child_urls ++ [urljoin url (stripFragment s)] }]
            cases hr : recur' (urljoin url (stripFragment s))
                { st with child_urls := st.child_urls ++ [urljoin url (stripFragment s)] } with
            | error e => rfl
            | ok st2 => exact ih st2

theorem crawl_page_congr (env env' : Env)
    (h : ∀ u, (env u).map Page.anchors = (env' u).map Page.anchors) :
    ∀ (fuel : Nat) (orig url : String) (st : CrawlState),
      crawl_page env orig fuel url st = crawl_page env' orig fuel url st := by
  intro fuel
  induction fuel with
  | zero => intro orig url st; rfl
  | succ fuel ih =>
    intro orig url st
    have hu := h url
    cases he : env url with
    | error e =>
      cases e
      cases he' : env' url with
      | error e' =>
        cases e'
        rw [crawl_page_succ_err env orig fuel url st he,
            crawl_page_succ_err env' orig fuel url st he']
      | ok page' =>
        rw [he, he'] at hu
        exact absurd hu (by simp [Except.map])
    | ok page =>
      cases he' : env' url with
      | error e' =>
        cases e'
        rw [he, he'] at hu
        exact absurd hu (by simp [Except.map])
      | ok page' =>
        rw [he, he'] at hu
        have hanch : page.anchors = page'.anchors := by
          simpa [Except.map] using hu
        rw [crawl_page_succ_ok env orig fuel url st page he,
            crawl_page_succ_ok env' orig fuel url st page' he', hanch]
        exact crawlAnchors_congr _ _ (fun u2 st2 => ih orig u2 st2) orig url page'.anchors _

/-- C1, amended: (a) when `requests.get url` raises, the exception
propagates out of `crawl_page` at once — the node is already marked
visited (no retry is possible), none of its links are explored, and the
error is the caller's problem (the counterexample shows it aborts the
whole run, siblings included); (b) HTTP failures do not raise: the
status code is ignored entirely — two environments with the same anchor
lists produce identical crawls whatever their status codes, so a non-2xx
page is still parsed and explored. -/
theorem claim1_amended_fetch_failure :
    (∀ (env : Env) (orig : String) (fuel : Nat) (url : String) (st : CrawlState),
      env url = .error () →
      crawl_page env orig (fuel + 1) url st =
        .error (.fetchError,
          { st with visited := setInsert url st.visited, fetched := st.fetched ++ [url] })) ∧
    (∀ env env' : Env, (∀ u, (env u).map Page.anchors = (env' u).map Page.anchors) →
      ∀ (fuel : Nat) (orig url : String) (st : CrawlState),
        crawl_page env orig fuel url st = crawl_page env' orig fuel url st) :=
  ⟨fun env orig fuel url st h => crawl_page_succ_err env orig fuel url st h,
   crawl_page_congr⟩

/-- C1, witness: a concrete failing GET produces exactly the escaping
fetch error with the URL marked visited, and a 404 page with one link is
crawled identically to the same page with status 200. -/
theorem claim1_amended_fetch_failure_witness :
    crawl_page envErr "https://w.com/" 1 "https://w.com/" initState =
        .error (.fetchError, ⟨["https://w.com/"], [], ["https://w.com/"]⟩) ∧
    crawl_page envStatus404 "https://s.com/" 3 "https://s.com/" initState =
        crawl_page envStatus200 "https://s.com/" 3 "https://s.com/" initState :=
  ⟨claim1_amended_fetch_failure.1 envErr "https://w.com/" 0 "https://w.com/" initState rfl,
   claim1_amended_fetch_failure.2 envStatus404 envStatus200
     (fun u => by
       by_cases h : u = "https://s.com/" <;>
         simp [envStatus404, envStatus200, h, Except.map])
     3 "https://s.com/" "https://s.com/" initState⟩

/-! ## Claim C8: persistence once, after the traversal. -/

/-- C8: when the traversal returns normally, the file content is exactly
the header row `Child URLs` followed by one single-cell row per URL of
DiscoveredList, in order (the single `open(..., 'w')` overwrites any
prior file); when the traversal raises, the write is never reached. -/
theorem claim8_csv_once_after_traversal :
    (∀ (env : Env) (fuel : Nat) (url : String) (st : CrawlState),
      runCrawl env fuel url = .ok st →
      mainOutput env fuel url = some (["Child URLs"] :: st.child_urls.map (fun u => [u]))) ∧
    (∀ (env : Env) (fuel : Nat) (url : String) (e : CrawlErr × CrawlState),
      runCrawl env fuel url = .error e → mainOutput env fuel url = none) := by
  constructor
  · intro env fuel url st h
    unfold mainOutput
    rw [h]
    rfl
  · intro env fuel url e h
    unfold mainOutput
    rw [h]

/-- C8, witness: the end-to-end fixture writes header plus two rows; the
fetch-failure fixture never writes. -/
theorem claim8_csv_once_after_traversal_witness :
    mainOutput envC3 10 "https://ex.com/" =
      some [["Child URLs"], ["https://ex.com/a"], ["https://ex.com/b"]] ∧
    mainOutput envC1 10 "https://s.com/" = none :=
  ⟨claim8_csv_once_after_traversal.1 envC3 10 "https://ex.com/"
      ⟨["https://ex.com/b", "https://ex.com/a", "https://ex.com/"],
       ["https://ex.com/a", "https://ex.com/b"],
       ["https://ex.com/", "https://ex.com/a", "https://ex.com/b"]⟩ rfl,
   claim8_csv_once_after_traversal.2 envC1 10 "https://s.com/"
      (.fetchError, ⟨["https://s.com/b", "https://s.com/"], ["https://s.com/b"],
        ["https://s.com/", "https://s.com/b"]⟩) rfl⟩

end GetAllChildPages

namespace AnalyzeRedditTopic

/-! ## Data model for `analyze-reddit-topic.py`

Only `parse_openai_response` (lines 102-120) is claim-relevant.  Its
collaborators are modelled executably: `json.loads` by a recursive
descent parser over a documented JSON subset, and
`re.search(r'\x7b[\s\S]*\x7d', content)` by the span from the first
opening brace to the last closing brace after it (the leftmost match of
that regex, whose greedy middle runs to the last closing brace). -/

/-- A parsed JSON value.  Python's `json.loads` returns any of these —
a dict only when the text is a JSON object. -/
inductive JValue where
  | jnull
  | jbool (b : Bool)
  | jnum (n : Int)
  | jstr (s : String)
  | jarr (elems : List JValue)
  | jobj (fields : List (String × JValue))
deriving Repr

/-- Is the value a Python dict? -/
def JValue.isObj : JValue → Bool
  | .jobj _ => true
  | _ => false

def isWsChar (c : Char) : Bool :=
  c = ' ' || c = '\n' || c = '\t' || c = '\r'

def skipWs (cs : List Char) : List Char := cs.dropWhile isWsChar

/-- Body of a double-quoted JSON string after the opening quote, up to
the closing quote (model subset: no escape sequences). -/
def parseStringBody : List Char → Option (String × List Char)
  | [] => none
  | c :: cs =>
    if c = '"' then some ("", cs)
    else
      match parseStringBody cs with
      | some (s, rest) => some (String.mk (c :: s.toList), rest)
      | none => none

/-- A nonempty run of decimal digits and its value. -/
def parseDigits (cs : List Char) : Option (Nat × List Char) :=
  let ds := cs.takeWhile Char.isDigit
  if ds.isEmpty then none
  else some (ds.foldl (fun acc c => acc * 10 + (c.toNat - 48)) 0, cs.drop ds.length)

/-- Elements of a JSON array after the opening bracket (at least one). -/
def parseListRest (pv : List Char → Option (JValue × List Char)) :
    Nat → List Char → Option (List JValue × List Char)
  | 0, _ => none
  | fuel + 1, cs =>
    match pv cs with
    | none => none
    | some (v, rest) =>
      match skipWs rest with
      | ']' :: rest2 => some ([v], rest2)
      | ',' :: rest2 =>
        match parseListRest pv fuel rest2 with
        | some (vs, rest3) => some (v :: vs, rest3)
        | none => none
      | _ => none

/-- Members of a JSON object after the opening brace (at least one). -/
def parseObjRest (pv : List Char → Option (JValue × List Char)) :
    Nat → List Char → Option (List (String × JValue) × List Char)
  | 0, _ => none
  | fuel + 1, cs =>
    match skipWs cs with
    | '"' :: cs2 =>
      match parseStringBody cs2 with
      | none => none
      | some (k, cs3) =>
        match skipWs cs3 with
        | ':' :: cs4 =>
          match pv cs4 with
          | none => none
          | some (v, cs5) =>
            match skipWs cs5 with
            | c :: cs6 =>
              if c = '\x7d' then some ([(k, v)], cs6)
              else if c = ',' then
                match parseObjRest pv fuel cs6 with
                | some (fs, cs7) => some ((k, v) :: fs, cs7)
                | none => none
              else none
            | [] => none
        | _ => none
    | _ => none

/-- One JSON value with leading whitespace, returning the unconsumed
rest. -/
def parseValue : Nat → List Char → Option (JValue × List Char)
  | 0, _ => none
  | fuel + 1, cs =>
    match skipWs cs with
    | [] => none
    | c :: cs2 =>
      if c = '\x7b' then
        match skipWs cs2 with
        | c2 :: cs3 =>
          if c2 = '\x7d' then some (.jobj [], cs3)
          else
            match parseObjRest (parseValue fuel) fuel cs2 with
            | some (fs, rest) => some (.jobj fs, rest)
            | none => none
        | [] => none
      else if c = '[' then
        match skipWs cs2 with
        | ']' :: cs3 => some (.jarr [], cs3)
        | _ =>
          match parseListRest (parseValue fuel) fuel cs2 with
          | some (vs, rest) => some (.jarr vs, rest)
          | none => none
      else if c = '"' then
        match parseStringBody cs2 with
        | some (s, rest) => some (.jstr s, rest)
        | none => none
      else if c = '-' then
        match parseDigits cs2 with
        | some (n, rest) => some (.jnum (-(n : Int)), rest)
        | none => none
      else if c.isDigit then
        match parseDigits (c :: cs2) with
        | some (n, rest) => some (.jnum (n : Int), rest)
        | none => none
      else if (c :: cs2).take 4 = ['t', 'r', 'u', 'e'] then
        some (.jbool true, (c :: cs2).drop 4)
      else if (c :: cs2).take 5 = ['f', 'a', 'l', 's', 'e'] then
        some (.jbool false, (c :: cs2).drop 5)
      else if (c :: cs2).take 4 = ['n', 'u', 'l', 'l'] then
        some (.jnull, (c :: cs2).drop 4)
      else none

/-- Model of Python `json.loads`: parse one value and require that only
whitespace remains, else `JSONDecodeError` (`none`).  Model subset:
objects, arrays, strings without escapes, integers, `true`, `false`,
`null` — enough for every input the theorems evaluate. -/
def json_loads (content : String) : Option JValue :=
  match parseValue (content.length + 1) content.toList with
  | some (v, rest) => if (skipWs rest).isEmpty then some v else none
  | none => none

/-- Model of `re.search(r'\x7b[\s\S]*\x7d', content, re.DOTALL)` (line
112) and `.group()`: the leftmost match of the regex, i.e. the span from
the first opening brace through the last closing brace after it; `none`
when no such span exists. -/
def braceSpan (content : String) : Option String :=
  let rest := content.toList.dropWhile (fun c => c ≠ '\x7b')
  let inner := (rest.reverse.dropWhile (fun c => c ≠ '\x7d')).reverse
  if inner.isEmpty then none else some (String.mk inner)

/-- `parse_openai_response` (lines 102-120): try `json.loads` on the
whole string; on `JSONDecodeError`, search for a brace-delimited span
and try `json.loads` on it; on any failure fall through to `return`
of the empty dict.  Whatever `json.loads` yields is returned as is —
including non-dict JSON values. -/
def parse_openai_response (content : String) : JValue :=
  match json_loads content with
  | some v => v
  | none =>
    match braceSpan content with
    | some span =>
      match json_loads span with
      | some v => v
      | none => .jobj []
    | none => .jobj []

/-! ## Claim C10: totality holds, but the result need not be a dict.

The fallback chain of `parse_openai_response` is total — every branch
returns — but the first branch returns whatever `json.loads` produced.
On the input `"5"` the whole string is valid JSON and the function
returns the integer `5`, not a dictionary, contradicting its own
docstring (`:return: Parsed JSON as a dictionary`) and breaking the
caller (`"summary" in analysis` raises `TypeError` on an `int`). -/

/-- C10: evaluating `parse_openai_response` at the failing input `"5"`
yields the non-dict value `5`; the other branches behave as described
(garbage gives the empty dict, a full-string object parses, an embedded
brace span is extracted and parsed). -/
theorem claim10_parse_response_not_dict :
    parse_openai_response "5" = JValue.jnum 5 ∧
    (parse_openai_response "5").isObj = false ∧
    parse_openai_response "not json at all" = JValue.jobj [] ∧
    parse_openai_response " \x7b\"a\": 1\x7d " = JValue.jobj [("a", JValue.jnum 1)] ∧
    braceSpan "xx \x7b\"a\": 1\x7d yy" = some "\x7b\"a\": 1\x7d" ∧
    parse_openai_response "xx \x7b\"a\": 1\x7d yy" = JValue.jobj [("a", JValue.jnum 1)] :=
  ⟨rfl, rfl, rfl, rfl, rfl, rfl⟩

end AnalyzeRedditTopic

end DataCollection
